import Mathlib

/-!
Verification of the AnimalFramework game core against its specification.

The development shallowly embeds the two core components of the repository:

* `logic/round_controller.py` — the round outcome state machine
  (`RoundController` with `record_correct`, `record_incorrect`, `_check`,
  `outcome`, `sync_from_phone`);
* `game/rounds.py` — the round composer (`choose_round` over a pool of
  image filenames, with an injected random source).

Python integers are modelled as `Int`; fallible paths return `Except`.
The injected `random.Random` object is modelled as an abstract interface
`RNG` over a state type, with a lawfulness predicate capturing the
documented behaviour of `choice`, `randint`, `sample` and `shuffle`.
-/

/-! ## Round outcome controller (`logic/round_controller.py`) -/

/-- The `Outcome` literal type (`"continue" | "win" | "lose" | "impossible"`).
`continue` is a Lean keyword, so that constructor is named `cont`. -/
inductive Outcome where
  | cont
  | win
  | lose
  | impossible
deriving DecidableEq, Repr

/-- The mutable fields of `RoundController`.  Python integers are `Int`. -/
structure RoundController where
  total_to_find : Int
  total_chances : Int
  remaining_to_find : Int
  remaining_chances : Int
  over : Bool
deriving DecidableEq, Repr

/-- `RoundController.__init__(total_to_find, total_chances)`. -/
def RoundController.init (total_to_find total_chances : Int) : RoundController :=
  { total_to_find := total_to_find
    total_chances := total_chances
    remaining_to_find := total_to_find
    remaining_chances := total_chances
    over := false }

/-- `RoundController._check`: evaluates the outcome in strict priority order,
setting `over` on a terminal outcome.  Returns the updated state and the
outcome (the Python method mutates `self` and returns the outcome). -/
def RoundController.check (c : RoundController) : RoundController × Outcome :=
  if c.remaining_to_find ≤ 0 then ({ c with over := true }, .win)
  else if c.remaining_chances ≤ 0 then ({ c with over := true }, .lose)
  else if c.remaining_to_find > c.remaining_chances then ({ c with over := true }, .impossible)
  else (c, .cont)

/-- `RoundController.record_correct`. -/
def RoundController.record_correct (c : RoundController) : RoundController × Outcome :=
  if c.over then (c, .cont)
  else RoundController.check { c with remaining_to_find := max 0 (c.remaining_to_find - 1) }

/-- `RoundController.record_incorrect`. -/
def RoundController.record_incorrect (c : RoundController) : RoundController × Outcome :=
  if c.over then (c, .cont)
  else RoundController.check { c with remaining_chances := max 0 (c.remaining_chances - 1) }

/-- `RoundController.outcome`: the pure, state-unchanging query. -/
def RoundController.outcome (c : RoundController) : Outcome :=
  if c.remaining_to_find ≤ 0 then .win
  else if c.remaining_chances ≤ 0 then .lose
  else if c.remaining_to_find > c.remaining_chances then .impossible
  else .cont

/-- A duck-typed `phone_frame` as seen by `sync_from_phone`.  For each of the
two attributes read with `getattr`: `none` means the attribute is absent
(so `getattr` yields the supplied default, a genuine integer); `some none`
means the attribute is present but `int()` of its value raises;
`some (some v)` means `int()` of its value converts to `v`. -/
structure PhoneFrame where
  num_images_to_find : Option (Option Int)
  chances_remaining : Option (Option Int)

/-- `int(getattr(pf, attr, dflt))`: `some v` when the conversion succeeds with
value `v`, `none` when it raises. -/
def getattrInt (attr : Option (Option Int)) (dflt : Int) : Option Int :=
  match attr with
  | none => some dflt
  | some none => none
  | some (some v) => some v

/-- `RoundController.sync_from_phone`: the two assignments run in order inside
one `try`; an exception in the second conversion leaves the first assignment
in place, and the `except` clause swallows the exception. -/
def RoundController.sync_from_phone (c : RoundController) (pf : PhoneFrame) : RoundController :=
  match getattrInt pf.num_images_to_find c.remaining_to_find with
  | none => c
  | some v1 =>
    match getattrInt pf.chances_remaining c.remaining_chances with
    | none => { c with remaining_to_find := v1 }
    | some v2 => { c with remaining_to_find := v1, remaining_chances := v2 }

/-- The two events the controller records. -/
inductive GameEvent where
  | correct
  | incorrect
deriving DecidableEq, Repr

/-- Dispatch one event to the controller. -/
def applyEvent (c : RoundController) (e : GameEvent) : RoundController × Outcome :=
  match e with
  | .correct => c.record_correct
  | .incorrect => c.record_incorrect

/-- Run a sequence of events, collecting the returned outcomes in order. -/
def runEvents (c : RoundController) : List GameEvent → RoundController × List Outcome
  | [] => (c, [])
  | e :: es =>
    let (c1, o) := applyEvent c e
    let (c2, os) := runEvents c1 es
    (c2, o :: os)

/-! ## Round composer (`game/rounds.py`) -/

/-- `pathlib.Path(f).stem`: the filename with its final suffix removed, where
a suffix is a final dot-segment whose dot is neither the first character nor
the last (CPython: `i = name.rfind('.'); name[:i] if 0 < i < len(name) - 1
else name`). -/
def stem (f : String) : String :=
  let l := f.data
  match ((List.range l.length).filter (fun i => l.getD i ' ' == '.')).getLast? with
  | some i => if 0 < i ∧ i < l.length - 1 then ⟨l.take i⟩ else f
  | none => f

/-- `[Path(f).stem for f in all_files if Path(f).stem]`. -/
def usableStems (all_files : List String) : List String :=
  all_files.filterMap (fun f => if stem f = "" then none else some (stem f))

/-- Insert a character into a sorted list of characters. -/
def insertSorted (c : Char) : List Char → List Char
  | [] => [c]
  | x :: xs => if c ≤ x then c :: x :: xs else x :: insertSorted c xs

/-- Python's `sorted` on characters, as insertion sort by codepoint. -/
def sortChars (l : List Char) : List Char := l.foldr insertSorted []

/-- `sorted({s[0].upper() for s in stems})` as a list of characters. -/
def letters_present (all_files : List String) : List Char :=
  sortChars (((usableStems all_files).map (fun s => (s.data.headD 'A').toUpper)).dedup)

/-- `Path(f).stem.lower().startswith(letter.lower())`: the match predicate of
the composer's partition step, at the level of character lists (`letter` is a
one-character string in the source). -/
def stemMatches (letter : Char) (f : String) : Bool :=
  List.isPrefixOf [letter.toLower] ((stem f).data.map Char.toLower)

/-- `RoundState`: `correct` is a Python `set`, modelled as a `Finset`. -/
structure RoundState where
  letter : Char
  selected : List String
  correct : Finset String
deriving DecidableEq

/-- The failure modes of `choose_round`.  The source raises `RuntimeError`
with distinct messages at the two documented sites (the spec's
`InsufficientPoolError` and `UnsatisfiableConstraintsError`); `valueError`
models the `ValueError` that `random.randint`/`random.sample` raise on
invalid arguments (negative or oversized sample size, empty range). -/
inductive RoundError where
  | insufficientPool
  | unsatisfiable
  | valueError
deriving DecidableEq, Repr

/-- The injected random source (`random.Random`), as an interface over a
state type `σ`: each operation consumes and returns the generator state. -/
structure RNG (σ : Type) where
  choice : List Char → σ → Char × σ
  randint : Int → Int → σ → Int × σ
  sample : List String → Nat → σ → List String × σ
  shuffle : List String → σ → List String × σ

/-- The documented behaviour of `random.Random` on valid arguments:
`choice` returns a member, `randint` a value in the closed range, `sample`
a sub-permutation of the requested size, `shuffle` a permutation. -/
structure RNG.Lawful {σ : Type} (g : RNG σ) : Prop where
  choice_mem : ∀ l s, l ≠ [] → (g.choice l s).1 ∈ l
  randint_le : ∀ a b s, a ≤ b → a ≤ (g.randint a b s).1 ∧ (g.randint a b s).1 ≤ b
  sample_length : ∀ l n s, n ≤ l.length → ((g.sample l n s).1).length = n
  sample_subperm : ∀ l n s, n ≤ l.length → ((g.sample l n s).1).Subperm l
  shuffle_perm : ∀ l s, ((g.shuffle l s).1).Perm l

/-- Step (d) of the composer's loop: the count check that rejects a
`(letter, target)` draw. -/
def countCheckFails (all_files : List String) (k : Nat) (letter : Char) (target : Int) : Prop :=
  ((all_files.filter (fun f => stemMatches letter f)).length : Int) < target ∨
    ((all_files.filter
        (fun f => !((all_files.filter (fun g => stemMatches letter g)).contains f))).length : Int) <
      (k : Int) - target

/-- The `while attempts < max_attempts` loop of `choose_round`, with the
remaining attempt budget as fuel.  On exhaustion it is the source's final
`raise RuntimeError(...)` (`UnsatisfiableConstraintsError`).  The guards
before `g.randint` and `g.sample` model the `ValueError` that Python's
`random` module raises on an empty range or an invalid sample size. -/
def chooseLoop {σ : Type} (g : RNG σ) (all_files : List String) (k : Nat)
    (min_correct max_correct : Int) (letters : List Char) :
    Nat → σ → Except RoundError (RoundState × σ)
  | 0, _ => .error .unsatisfiable
  | fuel + 1, s =>
    let letter := (g.choice letters s).1
    let s1 := (g.choice letters s).2
    if min_correct ≤ max_correct then
      let target := (g.randint min_correct max_correct s1).1
      let s2 := (g.randint min_correct max_correct s1).2
      let matchesL := all_files.filter (fun f => stemMatches letter f)
      let nonmatchesL := all_files.filter (fun f => !(matchesL.contains f))
      if (matchesL.length : Int) < target ∨ (nonmatchesL.length : Int) < (k : Int) - target then
        chooseLoop g all_files k min_correct max_correct letters fuel s2
      else if 0 ≤ target ∧ 0 ≤ (k : Int) - target then
        let correct_sel := (g.sample matchesL target.toNat s2).1
        let s3 := (g.sample matchesL target.toNat s2).2
        let distractors := (g.sample nonmatchesL ((k : Int) - target).toNat s3).1
        let s4 := (g.sample nonmatchesL ((k : Int) - target).toNat s3).2
        let selected := (g.shuffle (correct_sel ++ distractors) s4).1
        let s5 := (g.shuffle (correct_sel ++ distractors) s4).2
        .ok ({ letter := letter, selected := selected, correct := correct_sel.toFinset }, s5)
      else .error .valueError
    else .error .valueError

/-- `choose_round(rng, images_folder, k, min_correct, max_correct,
max_attempts)`, taking the folder's sorted PNG listing (`_files_in`'s result)
directly as `all_files` — the core performs no filesystem access of its own. -/
def choose_round {σ : Type} (g : RNG σ) (all_files : List String) (k : Nat)
    (min_correct max_correct : Int) (max_attempts : Nat) (s : σ) :
    Except RoundError (RoundState × σ) :=
  if all_files.length < k then .error .insufficientPool
  else if (letters_present all_files).isEmpty then .error .insufficientPool
  else chooseLoop g all_files k min_correct max_correct (letters_present all_files) max_attempts s

/-- A trivial deterministic generator over the unit state: used to witness
the composer theorems on concrete inputs. -/
def trivRNG : RNG Unit :=
  { choice := fun l _ => (l.headD 'A', ())
    randint := fun a _ _ => (a, ())
    sample := fun l n _ => (l.take n, ())
    shuffle := fun l _ => (l, ()) }

/-! ## Controller lemmas and claims -/

/-- `_check` never touches the four counters: it only sets `over`. -/
theorem check_counters (c : RoundController) :
    (c.check).1.total_to_find = c.total_to_find ∧
    (c.check).1.total_chances = c.total_chances ∧
    (c.check).1.remaining_to_find = c.remaining_to_find ∧
    (c.check).1.remaining_chances = c.remaining_chances := by
  unfold RoundController.check
  split_ifs <;> simp

/-- Claim C2 counterexample: with `total_to_find = 2` and `total_chances = 3`,
the second `record_incorrect` already leaves `remaining_to_find = 2 >
remaining_chances = 1`, so the outcome sequence is not
`[continue, continue, lose]`. -/
theorem C2_counterexample :
    (runEvents (RoundController.init 2 3) [.incorrect, .incorrect, .incorrect]).2 ≠
      [Outcome.cont, Outcome.cont, Outcome.lose] := by
  decide

/-- Claim C2 (amended): with `total_to_find = 2` and `total_chances = 3`, the
sequence incorrect, incorrect, incorrect yields outcomes
continue, impossible, continue; afterwards `remaining_chances = 1`,
`remaining_to_find = 2` and the round is over. -/
theorem C2_scenario_two_incorrect_then_impossible :
    runEvents (RoundController.init 2 3) [.incorrect, .incorrect, .incorrect] =
      ({ total_to_find := 2, total_chances := 3, remaining_to_find := 2,
         remaining_chances := 1, over := true },
       [Outcome.cont, Outcome.impossible, Outcome.cont]) := by
  decide

/-- Claim C3 counterexample: with `total_to_find = 4` and `total_chances = 5`,
the second `record_incorrect` already gives `impossible`
(`remaining_to_find = 4 > remaining_chances = 3`), so the outcomes are not
`[continue, continue, impossible]`. -/
theorem C3_counterexample :
    (runEvents (RoundController.init 4 5) [.incorrect, .incorrect, .incorrect]).2 ≠
      [Outcome.cont, Outcome.cont, Outcome.impossible] := by
  decide

/-- Claim C3 (amended): with `total_to_find = 4` and `total_chances = 5`, the
sequence incorrect, incorrect, incorrect yields continue, impossible,
continue: `impossible` fires on the second event, when
`remaining_to_find = 4 > remaining_chances = 3`, before chances reach 0. -/
theorem C3_scenario_impossible_on_second :
    runEvents (RoundController.init 4 5) [.incorrect, .incorrect, .incorrect] =
      ({ total_to_find := 4, total_chances := 5, remaining_to_find := 4,
         remaining_chances := 3, over := true },
       [Outcome.cont, Outcome.impossible, Outcome.cont]) := by
  decide

/-- Claim C4: once `over` is true, each of `record_correct` and
`record_incorrect` returns `continue` and leaves the whole state unchanged,
and any sequence of further events leaves the state unchanged and returns
`continue` for every event. -/
theorem C4_events_noop_after_over (c : RoundController) (h : c.over = true) :
    (∀ e : GameEvent, applyEvent c e = (c, Outcome.cont)) ∧
    (∀ evs : List GameEvent,
      runEvents c evs = (c, evs.map fun _ => Outcome.cont)) := by
  have he : ∀ e : GameEvent, applyEvent c e = (c, Outcome.cont) := by
    intro e
    cases e <;>
      simp [applyEvent, RoundController.record_correct, RoundController.record_incorrect, h]
  refine ⟨he, ?_⟩
  intro evs
  induction evs with
  | nil => simp [runEvents]
  | cons e es ih => simp [runEvents, he e, ih]

/-- Claim C4 witness: a concrete finished controller ignores further events. -/
theorem C4_witness :
    (∀ e : GameEvent,
      applyEvent { total_to_find := 2, total_chances := 3, remaining_to_find := 0,
                   remaining_chances := 1, over := true } e =
        ({ total_to_find := 2, total_chances := 3, remaining_to_find := 0,
           remaining_chances := 1, over := true }, Outcome.cont)) ∧
    (∀ evs : List GameEvent,
      runEvents { total_to_find := 2, total_chances := 3, remaining_to_find := 0,
                  remaining_chances := 1, over := true } evs =
        ({ total_to_find := 2, total_chances := 3, remaining_to_find := 0,
           remaining_chances := 1, over := true }, evs.map fun _ => Outcome.cont)) :=
  C4_events_noop_after_over
    { total_to_find := 2, total_chances := 3, remaining_to_find := 0,
      remaining_chances := 1, over := true } rfl

/-- Claim C5 counterexample: `sync_from_phone` is an operation of the
controller that can raise `remaining_to_find` above its prior value and can
drive `remaining_chances` below 0, refuting "no operation raises either
counter above its prior value" and "never negative" over all operations. -/
theorem C5_counterexample :
    ¬(((RoundController.init 2 3).sync_from_phone
          { num_images_to_find := some (some 100),
            chances_remaining := some (some (-5)) }).remaining_to_find ≤
        (RoundController.init 2 3).remaining_to_find) ∧
    ((RoundController.init 2 3).sync_from_phone
        { num_images_to_find := some (some 100),
          chances_remaining := some (some (-5)) }).remaining_chances < 0 := by
  decide

/-- Claim C5 (amended): for the two event operations, starting from
non-negative counters, `record_correct` and `record_incorrect` never increase
`remaining_to_find` or `remaining_chances`, decrease each by at most 1, and
never take either below 0.  (`sync_from_phone` is exempt: it stores arbitrary
externally supplied integers.) -/
theorem C5_event_counters_monotone (c : RoundController) (e : GameEvent)
    (h1 : 0 ≤ c.remaining_to_find) (h2 : 0 ≤ c.remaining_chances) :
    ((applyEvent c e).1.remaining_to_find ≤ c.remaining_to_find ∧
      c.remaining_to_find - 1 ≤ (applyEvent c e).1.remaining_to_find ∧
      0 ≤ (applyEvent c e).1.remaining_to_find) ∧
    ((applyEvent c e).1.remaining_chances ≤ c.remaining_chances ∧
      c.remaining_chances - 1 ≤ (applyEvent c e).1.remaining_chances ∧
      0 ≤ (applyEvent c e).1.remaining_chances) := by
  obtain ⟨-, -, h3, h4⟩ :=
    check_counters { c with remaining_to_find := max 0 (c.remaining_to_find - 1) }
  obtain ⟨-, -, h5, h6⟩ :=
    check_counters { c with remaining_chances := max 0 (c.remaining_chances - 1) }
  cases e <;>
    simp only [applyEvent, RoundController.record_correct, RoundController.record_incorrect] <;>
    split <;> simp only [h3, h4, h5, h6] <;> omega

/-- Claim C5 witness: the amended monotonicity at a concrete state/event. -/
theorem C5_witness :
    ((applyEvent (RoundController.init 2 3) GameEvent.correct).1.remaining_to_find ≤
        (RoundController.init 2 3).remaining_to_find ∧
      (RoundController.init 2 3).remaining_to_find - 1 ≤
        (applyEvent (RoundController.init 2 3) GameEvent.correct).1.remaining_to_find ∧
      0 ≤ (applyEvent (RoundController.init 2 3) GameEvent.correct).1.remaining_to_find) ∧
    ((applyEvent (RoundController.init 2 3) GameEvent.correct).1.remaining_chances ≤
        (RoundController.init 2 3).remaining_chances ∧
      (RoundController.init 2 3).remaining_chances - 1 ≤
        (applyEvent (RoundController.init 2 3) GameEvent.correct).1.remaining_chances ∧
      0 ≤ (applyEvent (RoundController.init 2 3) GameEvent.correct).1.remaining_chances) :=
  C5_event_counters_monotone (RoundController.init 2 3) GameEvent.correct
    (by decide) (by decide)

/-- Claim C7: from a live state with `remaining_to_find = 1` and
`remaining_chances = 1`, `record_correct` reports `win` — the win rule is
evaluated before the lose and impossible rules. -/
theorem C7_win_beats_lose (c : RoundController) (h1 : c.over = false)
    (h2 : c.remaining_to_find = 1) (h3 : c.remaining_chances = 1) :
    (c.record_correct).2 = Outcome.win := by
  simp [RoundController.record_correct, RoundController.check, h1, h2, h3]

/-- Claim C7 witness: the tie-break at the concrete state (1, 1, live). -/
theorem C7_witness :
    (RoundController.record_correct
        { total_to_find := 1, total_chances := 2, remaining_to_find := 1,
          remaining_chances := 1, over := false }).2 = Outcome.win :=
  C7_win_beats_lose
    { total_to_find := 1, total_chances := 2, remaining_to_find := 1,
      remaining_chances := 1, over := false } rfl rfl rfl

/-- Claim C9: the sync path tolerates malformed external state.  The
`try`/`except` makes `sync_from_phone` total (no fault escapes); a counter
whose external value fails integer conversion keeps its prior value; each
counter is either unchanged or set to a successfully converted external
value (a malformed value is never stored); and no other field changes. -/
theorem C9_sync_tolerates_malformed (c : RoundController) (pf : PhoneFrame) :
    ((c.sync_from_phone pf).remaining_to_find = c.remaining_to_find ∨
      ∃ v, pf.num_images_to_find = some (some v) ∧
        (c.sync_from_phone pf).remaining_to_find = v) ∧
    ((c.sync_from_phone pf).remaining_chances = c.remaining_chances ∨
      ∃ v, pf.chances_remaining = some (some v) ∧
        (c.sync_from_phone pf).remaining_chances = v) ∧
    (pf.num_images_to_find = some none →
      c.sync_from_phone pf = c) ∧
    (pf.chances_remaining = some none →
      (c.sync_from_phone pf).remaining_chances = c.remaining_chances) ∧
    (c.sync_from_phone pf).total_to_find = c.total_to_find ∧
    (c.sync_from_phone pf).total_chances = c.total_chances ∧
    (c.sync_from_phone pf).over = c.over := by
  obtain ⟨a, b⟩ := pf
  rcases a with _ | (_ | v1) <;> rcases b with _ | (_ | v2) <;>
    simp [RoundController.sync_from_phone, getattrInt]

/-- Claim C9 witness: a frame whose two values both fail conversion leaves a
concrete controller fully unchanged. -/
theorem C9_witness :
    (((RoundController.init 2 3).sync_from_phone
          { num_images_to_find := some none, chances_remaining := some none }).remaining_to_find =
        (RoundController.init 2 3).remaining_to_find ∨
      ∃ v, ({ num_images_to_find := some none, chances_remaining := some none } :
            PhoneFrame).num_images_to_find = some (some v) ∧
        ((RoundController.init 2 3).sync_from_phone
            { num_images_to_find := some none, chances_remaining := some none }).remaining_to_find =
          v) ∧
    (((RoundController.init 2 3).sync_from_phone
          { num_images_to_find := some none, chances_remaining := some none }).remaining_chances =
        (RoundController.init 2 3).remaining_chances ∨
      ∃ v, ({ num_images_to_find := some none, chances_remaining := some none } :
            PhoneFrame).chances_remaining = some (some v) ∧
        ((RoundController.init 2 3).sync_from_phone
            { num_images_to_find := some none, chances_remaining := some none }).remaining_chances =
          v) ∧
    (({ num_images_to_find := some none, chances_remaining := some none } :
          PhoneFrame).num_images_to_find = some none →
      (RoundController.init 2 3).sync_from_phone
          { num_images_to_find := some none, chances_remaining := some none } =
        RoundController.init 2 3) ∧
    (({ num_images_to_find := some none, chances_remaining := some none } :
          PhoneFrame).chances_remaining = some none →
      ((RoundController.init 2 3).sync_from_phone
          { num_images_to_find := some none, chances_remaining := some none }).remaining_chances =
        (RoundController.init 2 3).remaining_chances) ∧
    ((RoundController.init 2 3).sync_from_phone
        { num_images_to_find := some none, chances_remaining := some none }).total_to_find =
      (RoundController.init 2 3).total_to_find ∧
    ((RoundController.init 2 3).sync_from_phone
        { num_images_to_find := some none, chances_remaining := some none }).total_chances =
      (RoundController.init 2 3).total_chances ∧
    ((RoundController.init 2 3).sync_from_phone
        { num_images_to_find := some none, chances_remaining := some none }).over =
      (RoundController.init 2 3).over :=
  C9_sync_tolerates_malformed (RoundController.init 2 3)
    { num_images_to_find := some none, chances_remaining := some none }

/-! ## Composer lemmas and claims -/

/-- A sub-permutation of a duplicate-free list is duplicate-free. -/
theorem subperm_nodup {α : Type} {l₁ l₂ : List α} (h : l₁.Subperm l₂) (h2 : l₂.Nodup) :
    l₁.Nodup := by
  obtain ⟨l, hp, hs⟩ := h
  exact hp.nodup_iff.mp (List.Nodup.sublist hs h2)

/-- The trivial generator satisfies the documented `random.Random`
behaviour. -/
theorem trivRNG_lawful : trivRNG.Lawful := by
  refine ⟨?_, ?_, ?_, ?_, ?_⟩
  · intro l s h
    cases l with
    | nil => exact absurd rfl h
    | cons a t => simp [trivRNG]
  · intro a b s h
    exact ⟨le_refl a, h⟩
  · intro l n s h
    simp [trivRNG]
    omega
  · intro l n s h
    exact (List.take_sublist n l).subperm
  · intro l s
    simp [trivRNG]

/-- Inversion of the composer's sampling loop: every successful result
satisfies the round invariants of the specification. -/
theorem chooseLoop_ok {σ : Type} {g : RNG σ} (hg : g.Lawful)
    {all_files : List String} {k : Nat} {mn mx : Int} {letters : List Char}
    {fuel : Nat} {s s' : σ} {rs : RoundState}
    (hnd : all_files.Nodup)
    (h : chooseLoop g all_files k mn mx letters fuel s = .ok (rs, s')) :
    rs.selected.length = k ∧
    rs.selected.Nodup ∧
    mn ≤ (rs.correct.card : Int) ∧
    (rs.correct.card : Int) ≤ mx ∧
    (∀ f ∈ rs.correct, f ∈ rs.selected) ∧
    (∀ f ∈ rs.correct, stemMatches rs.letter f = true) ∧
    (∀ f ∈ rs.selected, f ∉ rs.correct → stemMatches rs.letter f = false) ∧
    (∀ f ∈ rs.selected, stemMatches rs.letter f = true → f ∈ rs.correct) := by
  induction fuel generalizing s with
  | zero => simp [chooseLoop] at h
  | succ fuel ih =>
    simp only [chooseLoop] at h
    set letter := (g.choice letters s).1 with hletter
    set s1 := (g.choice letters s).2 with hs1
    set target := (g.randint mn mx s1).1 with htarget
    set s2 := (g.randint mn mx s1).2 with hs2
    set matchesL := all_files.filter (fun f => stemMatches letter f) with hmat
    set nonmatchesL := all_files.filter (fun f => !(matchesL.contains f)) with hnonmat
    split_ifs at h with hmm hretry hguard
    · exact ih h
    · -- successful sampling branch
      set correct_sel := (g.sample matchesL target.toNat s2).1 with hcs
      set s3 := (g.sample matchesL target.toNat s2).2 with hs3
      set distractors := (g.sample nonmatchesL ((k : Int) - target).toNat s3).1 with hds
      set s4 := (g.sample nonmatchesL ((k : Int) - target).toNat s3).2 with hs4
      rw [Except.ok.injEq, Prod.mk.injEq] at h
      obtain ⟨hrs, -⟩ := h
      have hl : rs.letter = letter := by rw [← hrs]
      have hsel : rs.selected = (g.shuffle (correct_sel ++ distractors) s4).1 := by rw [← hrs]
      have hcor : rs.correct = correct_sel.toFinset := by rw [← hrs]
      push_neg at hretry
      obtain ⟨hm_le, hn_le⟩ := hretry
      obtain ⟨ht0, hkt0⟩ := hguard
      obtain ⟨hmnt, htmx⟩ := hg.randint_le mn mx s1 hmm
      have htn_le : target.toNat ≤ matchesL.length := by omega
      have hdn_le : ((k : Int) - target).toNat ≤ nonmatchesL.length := by omega
      have len_cs : correct_sel.length = target.toNat := hg.sample_length _ _ _ htn_le
      have len_ds : distractors.length = ((k : Int) - target).toNat :=
        hg.sample_length _ _ _ hdn_le
      have sp_cs : correct_sel.Subperm matchesL := hg.sample_subperm _ _ _ htn_le
      have sp_ds : distractors.Subperm nonmatchesL := hg.sample_subperm _ _ _ hdn_le
      have sub_cs : correct_sel ⊆ matchesL := sp_cs.subset
      have sub_ds : distractors ⊆ nonmatchesL := sp_ds.subset
      have nd_m : matchesL.Nodup := List.Nodup.filter _ hnd
      have nd_n : nonmatchesL.Nodup := List.Nodup.filter _ hnd
      have nd_cs : correct_sel.Nodup := subperm_nodup sp_cs nd_m
      have nd_ds : distractors.Nodup := subperm_nodup sp_ds nd_n
      have mem_nonmat : ∀ f ∈ nonmatchesL, f ∈ all_files ∧ f ∉ matchesL := by
        intro f hf
        rw [hnonmat, List.mem_filter] at hf
        refine ⟨hf.1, ?_⟩
        have := hf.2
        simp [List.contains] at this
        exact this
      have disj : correct_sel.Disjoint distractors := by
        intro f hf1 hf2
        exact (mem_nonmat f (sub_ds hf2)).2 (sub_cs hf1)
      have perm_sel : ((g.shuffle (correct_sel ++ distractors) s4).1).Perm
          (correct_sel ++ distractors) := hg.shuffle_perm _ _
      have nd_sel : rs.selected.Nodup := by
        rw [hsel]
        exact perm_sel.nodup_iff.mpr (nd_cs.append nd_ds disj)
      have len_sel : rs.selected.length = k := by
        rw [hsel, perm_sel.length_eq, List.length_append, len_cs, len_ds]
        omega
      have card_cor : rs.correct.card = target.toNat := by
        rw [hcor, List.toFinset_card_of_nodup nd_cs, len_cs]
      have mem_cor : ∀ f, f ∈ rs.correct ↔ f ∈ correct_sel := by
        intro f
        rw [hcor, List.mem_toFinset]
      have mem_sel : ∀ f, f ∈ rs.selected ↔ f ∈ correct_sel ∨ f ∈ distractors := by
        intro f
        rw [hsel, perm_sel.mem_iff, List.mem_append]
      have cs_matches : ∀ f ∈ correct_sel, stemMatches letter f = true := by
        intro f hf
        exact (List.mem_filter.mp (sub_cs hf)).2
      have ds_not_matches : ∀ f ∈ distractors, stemMatches letter f = false := by
        intro f hf
        obtain ⟨hfa, hfm⟩ := mem_nonmat f (sub_ds hf)
        cases hb : stemMatches letter f with
        | false => rfl
        | true => exact absurd (List.mem_filter.mpr ⟨hfa, hb⟩) hfm
      refine ⟨len_sel, nd_sel, ?_, ?_, ?_, ?_, ?_, ?_⟩
      · rw [card_cor]; omega
      · rw [card_cor]; omega
      · intro f hf
        exact (mem_sel f).mpr (Or.inl ((mem_cor f).mp hf))
      · intro f hf
        rw [hl]
        exact cs_matches f ((mem_cor f).mp hf)
      · intro f hf hnc
        rw [hl]
        rcases (mem_sel f).mp hf with hfc | hfd
        · exact absurd ((mem_cor f).mpr hfc) hnc
        · exact ds_not_matches f hfd
      · intro f hf hm
        rcases (mem_sel f).mp hf with hfc | hfd
        · exact (mem_cor f).mpr hfc
        · rw [hl] at hm
          rw [ds_not_matches f hfd] at hm
          exact absurd hm (by simp)

/-- Equality of `Except` results is decidable, so witnesses can evaluate
concrete composer runs. -/
instance {ε α : Type} [DecidableEq ε] [DecidableEq α] : DecidableEq (Except ε α) := fun a b =>
  match a, b with
  | .ok x, .ok y => if h : x = y then .isTrue (by rw [h]) else .isFalse (by simp [h])
  | .error x, .error y => if h : x = y then .isTrue (by rw [h]) else .isFalse (by simp [h])
  | .ok _, .error _ => .isFalse (by simp)
  | .error _, .ok _ => .isFalse (by simp)

/-- Claim C1: for every duplicate-free pool listing with at least `k` items
and at least one non-empty stem, and every lawful random source,
`choose_round` either raises an error or returns a `RoundState` with
`|selected| = k`, `correct ⊆ selected`,
`min_correct ≤ |correct| ≤ max_correct`, every member of `correct` matching
the letter (case-insensitively) and every member of `selected \ correct`
not matching it. -/
theorem C1_choose_round_postconditions {σ : Type} (g : RNG σ) (hg : g.Lawful)
    (all_files : List String) (k : Nat) (mn mx : Int) (ma : Nat) (s : σ)
    (hnd : all_files.Nodup) (hk : k ≤ all_files.length)
    (hstem : ∃ f ∈ all_files, stem f ≠ "") :
    (∃ e, choose_round g all_files k mn mx ma s = .error e) ∨
    (∃ rs s', choose_round g all_files k mn mx ma s = .ok (rs, s') ∧
      rs.selected.length = k ∧
      (∀ f ∈ rs.correct, f ∈ rs.selected) ∧
      mn ≤ (rs.correct.card : Int) ∧
      (rs.correct.card : Int) ≤ mx ∧
      (∀ f ∈ rs.correct, stemMatches rs.letter f = true) ∧
      (∀ f ∈ rs.selected, f ∉ rs.correct → stemMatches rs.letter f = false)) := by
  cases heq : choose_round g all_files k mn mx ma s with
  | error e => exact Or.inl ⟨e, rfl⟩
  | ok p =>
    obtain ⟨rs, s'⟩ := p
    refine Or.inr ⟨rs, s', rfl, ?_⟩
    unfold choose_round at heq
    split_ifs at heq
    obtain ⟨h1, h2, h3, h4, h5, h6, h7, h8⟩ := chooseLoop_ok hg hnd heq
    exact ⟨h1, h5, h3, h4, h6, h7⟩

/-- Claim C1 witness: the postconditions at a concrete pool and generator. -/
theorem C1_witness :
    (∃ e, choose_round trivRNG ["Ant.png", "Axolotl.png", "Bee.png", "Cat.png"] 3 2 2 5 () =
      .error e) ∨
    (∃ rs s', choose_round trivRNG ["Ant.png", "Axolotl.png", "Bee.png", "Cat.png"] 3 2 2 5 () =
      .ok (rs, s') ∧
      rs.selected.length = 3 ∧
      (∀ f ∈ rs.correct, f ∈ rs.selected) ∧
      (2 : Int) ≤ (rs.correct.card : Int) ∧
      (rs.correct.card : Int) ≤ (2 : Int) ∧
      (∀ f ∈ rs.correct, stemMatches rs.letter f = true) ∧
      (∀ f ∈ rs.selected, f ∉ rs.correct → stemMatches rs.letter f = false)) :=
  C1_choose_round_postconditions trivRNG trivRNG_lawful
    ["Ant.png", "Axolotl.png", "Bee.png", "Cat.png"] 3 2 2 5 ()
    (by decide) (by decide) (by decide)

/-- Claim C10: every successful round over a duplicate-free pool has pairwise
distinct tiles, and `correct` is exactly the set of selected filenames whose
stem matches the chosen letter. -/
theorem C10_selected_nodup_correct_exact {σ : Type} (g : RNG σ) (hg : g.Lawful)
    (all_files : List String) (k : Nat) (mn mx : Int) (ma : Nat) (s s' : σ)
    (rs : RoundState) (hnd : all_files.Nodup)
    (h : choose_round g all_files k mn mx ma s = .ok (rs, s')) :
    rs.selected.Nodup ∧
    (∀ f, f ∈ rs.correct ↔ (f ∈ rs.selected ∧ stemMatches rs.letter f = true)) := by
  unfold choose_round at h
  split_ifs at h
  obtain ⟨h1, h2, h3, h4, h5, h6, h7, h8⟩ := chooseLoop_ok hg hnd h
  exact ⟨h2, fun f => ⟨fun hf => ⟨h5 f hf, h6 f hf⟩, fun hf => h8 f hf.1 hf.2⟩⟩

/-- The pool listing used by the concrete composer witnesses. -/
def demoPool : List String := ["Ant.png", "Axolotl.png", "Bee.png", "Cat.png"]

/-- The round the trivial generator composes from `demoPool` with `k = 3`
and `min_correct = max_correct = 2`. -/
def demoRound : RoundState :=
  { letter := 'A'
    selected := ["Ant.png", "Axolotl.png", "Bee.png"]
    correct := (["Ant.png", "Axolotl.png"] : List String).toFinset }

/-- Claim C10 witness: distinctness and exactness at a concrete round. -/
theorem C10_witness :
    demoRound.selected.Nodup ∧
    (∀ f, f ∈ demoRound.correct ↔
      (f ∈ demoRound.selected ∧ stemMatches demoRound.letter f = true)) :=
  C10_selected_nodup_correct_exact trivRNG trivRNG_lawful demoPool 3 2 2 5 () () demoRound
    (by decide) (by decide)

/-- The sampling loop never reports an insufficient pool: that error is a
pre-loop check. -/
theorem chooseLoop_ne_insufficientPool {σ : Type} (g : RNG σ) (all_files : List String)
    (k : Nat) (mn mx : Int) (letters : List Char) :
    ∀ (fuel : Nat) (s : σ),
      chooseLoop g all_files k mn mx letters fuel s ≠ .error .insufficientPool := by
  intro fuel
  induction fuel with
  | zero => intro s h; simp [chooseLoop] at h
  | succ fuel ih =>
    intro s h
    simp only [chooseLoop] at h
    split_ifs at h
    · exact ih _ h
    · simp at h
    · simp at h

/-- With a lawful generator and a valid configuration
(`0 ≤ min_correct ≤ max_correct ≤ k`), the loop never hits a `ValueError`
path: the guards of `randint` and `sample` always pass. -/
theorem chooseLoop_ne_valueError {σ : Type} {g : RNG σ} (hg : g.Lawful)
    {all_files : List String} {k : Nat} {mn mx : Int} {letters : List Char}
    (h0 : 0 ≤ mn) (h1 : mn ≤ mx) (h2 : mx ≤ (k : Int)) :
    ∀ (fuel : Nat) (s : σ),
      chooseLoop g all_files k mn mx letters fuel s ≠ .error .valueError := by
  intro fuel
  induction fuel with
  | zero => intro s h; simp [chooseLoop] at h
  | succ fuel ih =>
    intro s h
    simp only [chooseLoop] at h
    obtain ⟨hl, hr⟩ := hg.randint_le mn mx (g.choice letters s).2 h1
    rw [if_pos h1] at h
    split_ifs at h with hretry hguard
    · exact ih _ h
    · exact hguard ⟨by omega, by omega⟩

/-- If the pool is large enough, some letter is derivable, and every
`(letter, target)` combination in range fails the count check, the loop
exhausts its budget and reports the constraint failure. -/
theorem chooseLoop_all_fail_unsat {σ : Type} {g : RNG σ} (hg : g.Lawful)
    {all_files : List String} {k : Nat} {mn mx : Int} {letters : List Char}
    (hmm : mn ≤ mx) (hne : letters ≠ [])
    (hfail : ∀ le ∈ letters, ∀ t : Int, mn ≤ t → t ≤ mx →
      countCheckFails all_files k le t) :
    ∀ (fuel : Nat) (s : σ),
      chooseLoop g all_files k mn mx letters fuel s = .error .unsatisfiable := by
  intro fuel
  induction fuel with
  | zero => intro s; simp [chooseLoop]
  | succ fuel ih =>
    intro s
    simp only [chooseLoop]
    rw [if_pos hmm]
    have hmem := hg.choice_mem letters s hne
    obtain ⟨hl, hr⟩ := hg.randint_le mn mx (g.choice letters s).2 hmm
    have hcf := hfail _ hmem _ hl hr
    unfold countCheckFails at hcf
    rw [if_pos hcf]
    exact ih _

/-- Claim C6: `choose_round` fails with the insufficient-pool error exactly
when the pool has fewer than `k` files or no letter is derivable (both
checked before any sampling attempt); under a valid configuration
(`0 ≤ min_correct ≤ max_correct ≤ k`) every failure is one of the two
documented errors; if the pre-checks pass and every in-range
`(letter, target)` combination fails the count check, the attempt budget is
exhausted and the constraint error is reported; and in every non-error case
a `RoundState` is returned. -/
theorem C6_error_cases {σ : Type} (g : RNG σ) (hg : g.Lawful)
    (all_files : List String) (k : Nat) (mn mx : Int) (ma : Nat) (s : σ)
    (h0 : 0 ≤ mn) (h1 : mn ≤ mx) (h2 : mx ≤ (k : Int)) :
    (choose_round g all_files k mn mx ma s = .error .insufficientPool ↔
      (all_files.length < k ∨ letters_present all_files = [])) ∧
    (∀ e, choose_round g all_files k mn mx ma s = .error e →
      e = .insufficientPool ∨ e = .unsatisfiable) ∧
    (¬ all_files.length < k → letters_present all_files ≠ [] →
      (∀ le ∈ letters_present all_files, ∀ t : Int, mn ≤ t → t ≤ mx →
        countCheckFails all_files k le t) →
      choose_round g all_files k mn mx ma s = .error .unsatisfiable) ∧
    ((∀ e, choose_round g all_files k mn mx ma s ≠ .error e) →
      ∃ rs s', choose_round g all_files k mn mx ma s = .ok (rs, s')) := by
  refine ⟨?_, ?_, ?_, ?_⟩
  · unfold choose_round
    split_ifs with hlen hemp
    · simp [hlen]
    · simp [List.isEmpty_iff.mp hemp]
    · constructor
      · intro h
        exact absurd h (chooseLoop_ne_insufficientPool g all_files k mn mx _ ma s)
      · intro hor
        rcases hor with hlt | hnil
        · exact absurd hlt hlen
        · exact absurd (List.isEmpty_iff.mpr hnil) hemp
  · intro e he
    cases e with
    | insufficientPool => exact Or.inl rfl
    | unsatisfiable => exact Or.inr rfl
    | valueError =>
      exfalso
      unfold choose_round at he
      split_ifs at he
      · simp at he
      · simp at he
      · exact chooseLoop_ne_valueError hg h0 h1 h2 ma s he
  · intro hlen hne hfail
    unfold choose_round
    have hemp : ¬((letters_present all_files).isEmpty = true) := fun hh =>
      hne (List.isEmpty_iff.mp hh)
    rw [if_neg hlen, if_neg hemp]
    exact chooseLoop_all_fail_unsat hg h1 hne hfail ma s
  · intro hne
    cases heq : choose_round g all_files k mn mx ma s with
    | error e => exact absurd heq (hne e)
    | ok p =>
      obtain ⟨rs, s'⟩ := p
      exact ⟨rs, s', rfl⟩

/-- Claim C6 witness: the error taxonomy at a concrete pool, configuration
and generator. -/
theorem C6_witness :
    (choose_round trivRNG demoPool 3 2 2 5 () = .error .insufficientPool ↔
      (demoPool.length < 3 ∨ letters_present demoPool = [])) ∧
    (∀ e, choose_round trivRNG demoPool 3 2 2 5 () = .error e →
      e = .insufficientPool ∨ e = .unsatisfiable) ∧
    (¬ demoPool.length < 3 → letters_present demoPool ≠ [] →
      (∀ le ∈ letters_present demoPool, ∀ t : Int, (2 : Int) ≤ t → t ≤ (2 : Int) →
        countCheckFails demoPool 3 le t) →
      choose_round trivRNG demoPool 3 2 2 5 () = .error .unsatisfiable) ∧
    ((∀ e, choose_round trivRNG demoPool 3 2 2 5 () ≠ .error e) →
      ∃ rs s', choose_round trivRNG demoPool 3 2 2 5 () = .ok (rs, s')) :=
  C6_error_cases trivRNG trivRNG_lawful demoPool 3 2 2 5 ()
    (by decide) (by decide) (by decide)

/-- Claim C8: `choose_round` is deterministic in its inputs.  The embedding
is a pure function of the generator, its seed state, the pool listing, `k`,
the correct-count bounds and the attempt budget, so identical inputs give
identical results (letter, tile order and correct set included). -/
theorem C8_deterministic {σ : Type} (g1 g2 : RNG σ) (s1 s2 : σ)
    (pool1 pool2 : List String) (k1 k2 : Nat) (mn1 mn2 mx1 mx2 : Int) (ma1 ma2 : Nat)
    (hg : g1 = g2) (hs : s1 = s2) (hp : pool1 = pool2) (hk : k1 = k2)
    (hmn : mn1 = mn2) (hmx : mx1 = mx2) (hma : ma1 = ma2) :
    choose_round g1 pool1 k1 mn1 mx1 ma1 s1 = choose_round g2 pool2 k2 mn2 mx2 ma2 s2 := by
  subst hg
  subst hs
  subst hp
  subst hk
  subst hmn
  subst hmx
  subst hma
  rfl

/-- Claim C8 witness: two identically seeded runs on the demo pool agree. -/
theorem C8_witness :
    choose_round trivRNG demoPool 3 2 2 5 () = choose_round trivRNG demoPool 3 2 2 5 () :=
  C8_deterministic trivRNG trivRNG () () demoPool demoPool 3 3 2 2 2 2 5 5
    rfl rfl rfl rfl rfl rfl rfl
